import Mathlib

/-!
Verification development for the RDS KPI monitor Lambda (`src/handler.py`).

The program lists RDS instances, pulls two CloudWatch metric series per
instance (free storage space and freeable memory), reduces each series to
its latest sample, derives a free-storage percentage, renders an HTML table
with threshold highlighting and a CSV attachment, and sends the report by
e-mail.  We embed the pure data transformations shallowly: byte values and
averages are rationals, Python's `round(x, 2)` is round-half-to-even at two
decimal places, the CloudWatch response is a list of datapoints, and the
external SDK calls (boto3, SES) are parameters of the embedded functions.
-/

namespace RdsKpi

/-- Round-half-to-even on rationals, matching the tie-breaking behaviour of
Python's built-in `round` on exact decimal inputs. -/
def roundHalfEven (q : ℚ) : ℤ :=
  let f := q.floor
  let r := q - (f : ℚ)
  if r < 1/2 then f
  else if 1/2 < r then f + 1
  else if f % 2 = 0 then f else f + 1

/-- Python's `round(x, 2)`: round to two decimal places. -/
def round2 (q : ℚ) : ℚ := (roundHalfEven (q * 100) : ℚ) / 100

/-- One CloudWatch datapoint: `{"Timestamp": ..., "Average": ...}`.
Timestamps are totally ordered instants; we model them as integers. -/
structure Datapoint where
  timestamp : ℤ
  average : ℚ
deriving DecidableEq, Repr

/-- `max(datapoints, key=lambda x: x["Timestamp"])` from `handler.py`
lines 65-67 and 81-83: Python's `max` keeps the current maximum and only
replaces it on a strictly larger key, so ties go to the earliest element. -/
def latestPoint : List Datapoint → Option Datapoint
  | [] => none
  | d :: ds => some (ds.foldl (fun acc x => if acc.timestamp < x.timestamp then x else acc) d)

/-- Lines 62-68 (and identically 79-86) of `handler.py`: the GB value for a
metric response.  `0` when `Datapoints` is empty, otherwise the latest
datapoint's `Average` divided by `1024*1024*1024 = 2^30`, rounded to two
decimal places. -/
def metricGB (dps : List Datapoint) : ℚ :=
  match latestPoint dps with
  | none => 0
  | some d => round2 (d.average / (1024 * 1024 * 1024))

/-- Lines 71-75 of `handler.py`:
`round((free_storage_gb / allocated_storage_gb) * 100, 2)` when
`allocated_storage_gb > 0`, else `0`.  `AllocatedStorage` is a nonnegative
integer, so the guard `> 0` distinguishes exactly the zero case. -/
def freeStoragePercent (allocated : ℕ) (freeStorageGB : ℚ) : ℚ :=
  if 0 < allocated then round2 (freeStorageGB / (allocated : ℚ) * 100) else 0

/-- The full per-instance pipeline from raw free-storage bytes to the
reported percentage: the GB figure is rounded first (line 68), and the
percentage is computed from that rounded figure (line 72). -/
def percentFromBytes (allocated : ℕ) (rawBytes : ℚ) : ℚ :=
  freeStoragePercent allocated (round2 (rawBytes / (1024 * 1024 * 1024)))

/-- One record appended to `results` in `get_rds_metrics_report`
(lines 88-97 of `handler.py`), field order as in the dict literal. -/
structure InstanceRecord where
  rdsInstanceName : String
  instanceState : String
  allocatedSpaceGB : ℕ
  freeStorageSpaceGB : ℚ
  freeStorageSpacePercent : ℚ
  freeableMemoryGB : ℚ
deriving DecidableEq, Repr

/-- The per-instance body of the loop in `get_rds_metrics_report`:
given the inventory metadata and the two CloudWatch responses, build the
record. -/
def collectInstance (instanceId : String) (allocatedStorage : ℕ)
    (instanceState : String) (freeStorageDps freeableMemoryDps : List Datapoint) :
    InstanceRecord :=
  let free_storage_gb := metricGB freeStorageDps
  let freeable_memory_gb := metricGB freeableMemoryDps
  { rdsInstanceName := instanceId
    instanceState := instanceState
    allocatedSpaceGB := allocatedStorage
    freeStorageSpaceGB := free_storage_gb
    freeStorageSpacePercent := freeStoragePercent allocatedStorage free_storage_gb
    freeableMemoryGB := freeable_memory_gb }

/-- `highlight_storage_percent` (lines 125-133 of `handler.py`), acting on
the parsed percentage of a row.  In the source the percentage travels
through `f"{x:.2f}"` and `float(...)`, which is the identity on values with
at most two decimal places (which the percentage always has, being a
`round(..., 2)` result). -/
def highlight_storage_percent (free_percent : ℚ) : List String :=
  if free_percent < 15 then
    ["", "", "", "", "background-color: red", ""]
  else if free_percent < 20 then
    ["", "", "", "", "background-color: orange", ""]
  else
    ["", "", "", "", "", ""]

/-- A cell of the serialized CSV: pandas writes strings, the integer
`Allocated Space (GB)` column, and float columns. -/
inductive CsvCell where
  | str (s : String)
  | int (n : ℕ)
  | rat (q : ℚ)
deriving DecidableEq, Repr

/-- The CSV header row: `df.to_csv` emits the DataFrame's columns, which are
the dict keys of the records built at lines 88-97 of `handler.py`, in
insertion order. -/
def csvHeader : List String :=
  ["RDS Instance Name", "Instance State", "Allocated Space (GB)",
   "Free Storage Space (GB)", "Free Storage Space (%)", "Freeable Memory (GB)"]

/-- One CSV data row: the record's fields in column order, raw values
(pandas serializes the unformatted DataFrame at line 206). -/
def recordToCsvRow (r : InstanceRecord) : List CsvCell :=
  [CsvCell.str r.rdsInstanceName, CsvCell.str r.instanceState,
   CsvCell.int r.allocatedSpaceGB, CsvCell.rat r.freeStorageSpaceGB,
   CsvCell.rat r.freeStorageSpacePercent, CsvCell.rat r.freeableMemoryGB]

/-- The CSV attachment built at lines 202-207 of `handler.py`: header row
(as string cells) followed by one row per instance, in order. -/
def csvRows (ms : List InstanceRecord) : List (List CsvCell) :=
  csvHeader.map CsvCell.str :: ms.map recordToCsvRow

/-- The invocation event, as far as `lambda_handler` inspects it: Python's
`event and "recipients" in event` is false for `None` and for an empty dict
(both modelled as `none` here, neither carries a `recipients` key), and
otherwise checks for the key. -/
structure Event where
  recipients : Option (List String)
deriving DecidableEq, Repr

/-- Python's `s.split(",")` for a single-character separator: split the
character sequence on every comma, keeping empty segments (so `"" ↦ [""]`,
matching Python). -/
def pythonSplitComma (s : String) : List String :=
  (s.toList.splitOn ',').map List.asString

/-- Lines 186-193 of `handler.py`: recipients default to the environment
variable `EMAIL_RECIPIENTS` (falling back to the literal
`"saasadmin@readywire.com"`) split on commas, and an event carrying a
`recipients` key replaces that list wholesale. -/
def resolveRecipients (emailRecipientsEnv : Option String) (event : Option Event) :
    List String :=
  let deflt := pythonSplitComma (emailRecipientsEnv.getD "saasadmin@readywire.com")
  match event with
  | some e =>
    match e.recipients with
    | some r => r
    | none => deflt
  | none => deflt

/-- The response object of `lambda_handler`. -/
structure LambdaResponse where
  statusCode : ℕ
  body : String
deriving DecidableEq, Repr

/-- Result of the happy path of `lambda_handler`: the response plus the
number of `send_report_email` calls made. -/
structure HandlerOutcome where
  response : LambdaResponse
  sendEmailCalls : ℕ
deriving DecidableEq, Repr

/-- `send_report_email` (lines 102-180 of `handler.py`): the whole body sits
in one `try`, so the function returns `True` exactly when every step of
composition and the SES submission succeed, and `False` on any exception —
nothing propagates.  The fallible external steps are the composition of the
MIME message (client creation, formatting, styling, attaching) and the
`send_raw_email` call; each is modelled by its `Except` outcome. -/
def send_report_email (compose : Except String Unit) (send : Except String String) :
    Bool :=
  match compose with
  | Except.error _ => false
  | Except.ok _ =>
    match send with
    | Except.error _ => false
    | Except.ok _ => true

/-- Lines 196-215 of `handler.py`, the body of `lambda_handler` after
recipient resolution, parameterized by the collected metrics and by the
boolean `send_report_email` returns when it is called.  An empty metrics
list short-circuits with a 200 and no e-mail; otherwise the CSV is built,
`send_report_email` is called once, and a 200 is returned whose body
reflects the boolean. -/
def handlerBody (rds_metrics : List InstanceRecord) (emailSent : Bool) :
    HandlerOutcome :=
  if rds_metrics = [] then
    { response := { statusCode := 200, body := "No RDS instances found in the account." }
      sendEmailCalls := 0 }
  else
    { response :=
        { statusCode := 200
          body := "RDS metrics report generated and " ++
            (if emailSent then "email sent successfully" else "failed to send email") ++ "." }
      sendEmailCalls := 1 }

/-- A concrete record used to instantiate witness theorems. -/
def sampleRecord : InstanceRecord :=
  { rdsInstanceName := "db-1", instanceState := "available",
    allocatedSpaceGB := 100, freeStorageSpaceGB := 12,
    freeStorageSpacePercent := 12, freeableMemoryGB := 4 }

/-- The fold used by `latestPoint` returns an element of the list whose
timestamp is maximal (Python's `max` keeps the first element among ties). -/
theorem foldlLatest_spec (d : Datapoint) (ds : List Datapoint) :
    (ds.foldl (fun acc x => if acc.timestamp < x.timestamp then x else acc) d) ∈ d :: ds ∧
    ∀ x ∈ d :: ds,
      x.timestamp ≤
        (ds.foldl (fun acc x => if acc.timestamp < x.timestamp then x else acc) d).timestamp := by
  induction ds generalizing d with
  | nil => simp
  | cons y ys ih =>
    simp only [List.foldl_cons]
    by_cases hdy : d.timestamp < y.timestamp
    · rw [if_pos hdy]
      obtain ⟨hmem, hmax⟩ := ih y
      refine ⟨List.mem_cons_of_mem _ hmem, ?_⟩
      intro x hx
      rcases List.mem_cons.1 hx with h1 | hx'
      · subst h1
        exact le_of_lt (lt_of_lt_of_le hdy (hmax _ (List.mem_cons_self _ _)))
      · exact hmax x hx'
    · rw [if_neg hdy]
      obtain ⟨hmem, hmax⟩ := ih d
      constructor
      · rcases List.mem_cons.1 hmem with h1 | h1
        · rw [h1]
          exact List.mem_cons_self _ _
        · exact List.mem_cons_of_mem _ (List.mem_cons_of_mem _ h1)
      · intro x hx
        rcases List.mem_cons.1 hx with h1 | hx'
        · subst h1
          exact hmax _ (List.mem_cons_self _ _)
        · rcases List.mem_cons.1 hx' with h1 | h1
          · subst h1
            exact le_trans (le_of_not_lt hdy) (hmax _ (List.mem_cons_self _ _))
          · exact hmax _ (List.mem_cons_of_mem _ h1)

/-- C1: in every record produced by the collector, the free-storage
percentage is exactly 0 when the allocated storage is 0 (the division
branch of lines 71-75 is not taken), and otherwise equals the free-storage
GB figure divided by the allocated storage, times 100, rounded to two
decimal places. -/
theorem claim_C1_percent_guard (id s : String) (f m : List Datapoint) (a : ℕ) :
    (a = 0 → (collectInstance id a s f m).freeStorageSpacePercent = 0) ∧
    (0 < a → (collectInstance id a s f m).freeStorageSpacePercent =
      round2 ((collectInstance id a s f m).freeStorageSpaceGB / (a : ℚ) * 100)) := by
  constructor
  · rintro rfl
    simp [collectInstance, freeStoragePercent]
  · intro h
    simp [collectInstance, freeStoragePercent, h]

/-- Witness for C1 at allocated storage 0 and 100. -/
theorem claim_C1_percent_guard_witness :
    (collectInstance "db-1" 0 "available" [] []).freeStorageSpacePercent = 0 ∧
    0 < 100 ∧
    (collectInstance "db-1" 100 "available" [] []).freeStorageSpacePercent =
      round2 ((collectInstance "db-1" 100 "available" [] []).freeStorageSpaceGB /
        ((100 : ℕ) : ℚ) * 100) :=
  ⟨(claim_C1_percent_guard "db-1" "available" [] [] 0).1 rfl,
   by decide,
   (claim_C1_percent_guard "db-1" "available" [] [] 100).2 (by decide)⟩

/-- C2: the HTML cell highlight follows strict thresholds on the row's
percentage: strictly below 15 gives the red background, at least 15 and
strictly below 20 gives the orange background, 20 or more gives no
highlight; in particular 14.99 is red, 15.00 is orange (not red), and
20.00 is unhighlighted. -/
theorem claim_C2_highlight (p : ℚ) :
    (p < 15 → highlight_storage_percent p =
      ["", "", "", "", "background-color: red", ""]) ∧
    (15 ≤ p → p < 20 → highlight_storage_percent p =
      ["", "", "", "", "background-color: orange", ""]) ∧
    (20 ≤ p → highlight_storage_percent p = ["", "", "", "", "", ""]) ∧
    highlight_storage_percent (1499 / 100) =
      ["", "", "", "", "background-color: red", ""] ∧
    highlight_storage_percent 15 = ["", "", "", "", "background-color: orange", ""] ∧
    highlight_storage_percent 20 = ["", "", "", "", "", ""] := by
  refine ⟨?_, ?_, ?_, ?_, ?_, ?_⟩
  · intro h
    simp [highlight_storage_percent, h]
  · intro h1 h2
    simp [highlight_storage_percent, not_lt.2 h1, h2]
  · intro h
    have h15 : ¬ p < 15 := not_lt.2 (le_trans (by norm_num) h)
    simp [highlight_storage_percent, h15, not_lt.2 h]
  · norm_num [highlight_storage_percent]
  · norm_num [highlight_storage_percent]
  · norm_num [highlight_storage_percent]

/-- Witness for C2 at the percentages 14, 16 and 25. -/
theorem claim_C2_highlight_witness :
    ((14 : ℚ) < 15 ∧ highlight_storage_percent 14 =
      ["", "", "", "", "background-color: red", ""]) ∧
    ((15 : ℚ) ≤ 16 ∧ (16 : ℚ) < 20 ∧ highlight_storage_percent 16 =
      ["", "", "", "", "background-color: orange", ""]) ∧
    ((20 : ℚ) ≤ 25 ∧ highlight_storage_percent 25 = ["", "", "", "", "", ""]) :=
  ⟨⟨by decide, (claim_C2_highlight 14).1 (by decide)⟩,
   ⟨by decide, by decide, (claim_C2_highlight 16).2.1 (by decide) (by decide)⟩,
   ⟨by decide, (claim_C2_highlight 25).2.2.1 (by decide)⟩⟩

/-- C3: for each of the two metrics (the collector computes both record
fields with the same extraction), the reported GB value is 0 when the
response has no datapoints, and otherwise is the `Average` of a
maximum-timestamp datapoint divided by `2^30` and rounded to two decimal
places. -/
theorem claim_C3_metric_latest :
    (∀ dps : List Datapoint,
      (dps = [] → metricGB dps = 0) ∧
      (dps ≠ [] → ∃ d ∈ dps, (∀ x ∈ dps, x.timestamp ≤ d.timestamp) ∧
        metricGB dps = round2 (d.average / 2 ^ 30))) ∧
    (∀ id a s f m, (collectInstance id a s f m).freeStorageSpaceGB = metricGB f ∧
      (collectInstance id a s f m).freeableMemoryGB = metricGB m) := by
  constructor
  · intro dps
    constructor
    · rintro rfl
      rfl
    · intro h
      cases dps with
      | nil => exact absurd rfl h
      | cons d ds =>
        obtain ⟨hmem, hmax⟩ := foldlLatest_spec d ds
        refine ⟨_, hmem, hmax, ?_⟩
        have h30 : ((1024 : ℚ) * 1024 * 1024) = 2 ^ 30 := by norm_num
        simp [metricGB, latestPoint, h30]
  · intro id a s f m
    exact ⟨rfl, rfl⟩

/-- Witness for C3 on the empty response and a one-datapoint response. -/
theorem claim_C3_metric_latest_witness :
    metricGB [] = 0 ∧
    (([⟨5, 0⟩] : List Datapoint) ≠ [] ∧
      ∃ d ∈ ([⟨5, 0⟩] : List Datapoint),
        (∀ x ∈ ([⟨5, 0⟩] : List Datapoint), x.timestamp ≤ d.timestamp) ∧
        metricGB [⟨5, 0⟩] = round2 (d.average / 2 ^ 30)) :=
  ⟨(claim_C3_metric_latest.1 []).1 rfl,
   by decide,
   (claim_C3_metric_latest.1 [⟨5, 0⟩]).2 (by decide)⟩

/-- C4: on an empty instance list the handler returns status 200 with the
"no instances found" message and makes no mail-send call. -/
theorem claim_C4_empty_shortcircuit (emailSent : Bool) :
    handlerBody [] emailSent =
      { response := { statusCode := 200, body := "No RDS instances found in the account." }
        sendEmailCalls := 0 } := rfl

/-- C5 counterexample: the CSV produced for a concrete non-empty instance
list does not start with the claimed header row — the first column of the
DataFrame is titled "RDS Instance Name", not "Instance Name". -/
theorem claim_C5_header_counterexample :
    (csvRows [sampleRecord]).head? ≠
      some ((["Instance Name", "Instance State", "Allocated Space (GB)",
        "Free Storage Space (GB)", "Free Storage Space (%)",
        "Freeable Memory (GB)"]).map CsvCell.str) := by decide

/-- C5 amended: the CSV for a non-empty instance list has exactly the
header row {RDS Instance Name, Instance State, Allocated Space (GB),
Free Storage Space (GB), Free Storage Space (%), Freeable Memory (GB)},
in that order, followed by one row per instance. -/
theorem claim_C5_csv_structure (ms : List InstanceRecord) (h : ms ≠ []) :
    csvRows ms =
      (["RDS Instance Name", "Instance State", "Allocated Space (GB)",
        "Free Storage Space (GB)", "Free Storage Space (%)",
        "Freeable Memory (GB)"].map CsvCell.str) :: ms.map recordToCsvRow ∧
    (csvRows ms).length = ms.length + 1 := by
  refine ⟨rfl, ?_⟩
  simp [csvRows]

/-- Witness for C5 on a one-instance list. -/
theorem claim_C5_csv_structure_witness :
    ([sampleRecord] ≠ ([] : List InstanceRecord)) ∧
    (csvRows [sampleRecord] =
      (["RDS Instance Name", "Instance State", "Allocated Space (GB)",
        "Free Storage Space (GB)", "Free Storage Space (%)",
        "Freeable Memory (GB)"].map CsvCell.str) :: [sampleRecord].map recordToCsvRow ∧
    (csvRows [sampleRecord]).length = [sampleRecord].length + 1) :=
  ⟨by decide, claim_C5_csv_structure [sampleRecord] (by decide)⟩

/-- C6: an event carrying a `recipients` key replaces the recipient list
wholesale; without the key the list is the environment default split on
commas. -/
theorem claim_C6_recipients_override :
    (∀ env r, resolveRecipients env (some { recipients := some r }) = r) ∧
    (∀ s, resolveRecipients (some s) none = pythonSplitComma s) ∧
    (∀ s, resolveRecipients (some s) (some { recipients := none }) = pythonSplitComma s) :=
  ⟨fun _ _ => rfl, fun _ => rfl, fun _ => rfl⟩

/-- C7: on a non-empty instance list the handler returns status 200 whether
or not the e-mail send succeeded; the outcome shows only in the body text,
and exactly one send call is made. -/
theorem claim_C7_status_regardless (ms : List InstanceRecord) (emailSent : Bool)
    (h : ms ≠ []) :
    (handlerBody ms emailSent).response.statusCode = 200 ∧
    (handlerBody ms emailSent).response.body =
      "RDS metrics report generated and " ++
        (if emailSent then "email sent successfully" else "failed to send email") ++ "." ∧
    (handlerBody ms emailSent).sendEmailCalls = 1 := by
  simp [handlerBody, h]

/-- Witness for C7 on a one-instance list, for both send outcomes. -/
theorem claim_C7_status_regardless_witness :
    ([sampleRecord] ≠ ([] : List InstanceRecord)) ∧
    (handlerBody [sampleRecord] true).response.statusCode = 200 ∧
    (handlerBody [sampleRecord] false).response.statusCode = 200 :=
  ⟨by decide,
   (claim_C7_status_regardless [sampleRecord] true (by decide)).1,
   (claim_C7_status_regardless [sampleRecord] false (by decide)).1⟩

/-- C8: `send_report_email` always returns a boolean — `True` exactly when
composition and submission both complete, `False` exactly when some step
raises; no exception propagates (the embedding is a total function). -/
theorem claim_C8_send_boolean (compose : Except String Unit)
    (send : Except String String) :
    (send_report_email compose send = true ↔
      (∃ u, compose = Except.ok u) ∧ ∃ msgId, send = Except.ok msgId) ∧
    (send_report_email compose send = false ↔
      (∃ e, compose = Except.error e) ∨ ∃ e, send = Except.error e) := by
  cases compose <;> cases send <;> simp [send_report_email]

/-- C9: for positive allocated storage the percentage is computed from the
already-rounded GB value — it equals
`round2 (round2 (bytes / 2^30) / allocated * 100)` — so two raw byte
values with the same rounded GB figure yield the same percentage, and the
collector's percentage field agrees with this pipeline. -/
theorem claim_C9_percent_from_rounded (alloc : ℕ) (h : 0 < alloc) :
    (∀ rawBytes : ℚ, percentFromBytes alloc rawBytes =
      round2 (round2 (rawBytes / 2 ^ 30) / (alloc : ℚ) * 100)) ∧
    (∀ b1 b2 : ℚ, round2 (b1 / 2 ^ 30) = round2 (b2 / 2 ^ 30) →
      percentFromBytes alloc b1 = percentFromBytes alloc b2) ∧
    (∀ id s m dp, (collectInstance id alloc s [dp] m).freeStorageSpacePercent =
      percentFromBytes alloc dp.average) := by
  have h30 : ((1024 : ℚ) * 1024 * 1024) = 2 ^ 30 := by norm_num
  refine ⟨?_, ?_, ?_⟩
  · intro b
    simp [percentFromBytes, freeStoragePercent, h, h30]
  · intro b1 b2 hb
    simp [percentFromBytes, freeStoragePercent, h, h30, hb]
  · intro id s m dp
    rfl

/-- Witness for C9 at allocated storage 100. -/
theorem claim_C9_percent_from_rounded_witness :
    0 < 100 ∧
    percentFromBytes 100 0 =
      round2 (round2 ((0 : ℚ) / 2 ^ 30) / ((100 : ℕ) : ℚ) * 100) ∧
    percentFromBytes 100 5 = percentFromBytes 100 5 :=
  ⟨by decide,
   (claim_C9_percent_from_rounded 100 (by decide)).1 0,
   (claim_C9_percent_from_rounded 100 (by decide)).2.1 5 5 rfl⟩

/-- C10: with `EMAIL_RECIPIENTS` unset and no `recipients` key in the
event, the recipient list is the hardcoded singleton. -/
theorem claim_C10_hardcoded_default :
    resolveRecipients none none = ["saasadmin@readywire.com"] ∧
    resolveRecipients none (some { recipients := none }) =
      ["saasadmin@readywire.com"] := by
  constructor <;> decide

end RdsKpi
